import Mathlib

/-! Shallow embedding of the transcription worker in `src/index.js`.

The program is a single-file Express service: an in-memory job map
(`const jobs = new Map()`), a creation endpoint (`app.post('/transcribe')`,
lines 44-72), a status endpoint (`app.get('/job/:jobId')`, lines 32-41) and a
background pipeline (`processTranscription`, lines 74-200) that runs
download -> transcribe -> callback -> cleanup and finally schedules a deferred
`jobs.delete` one hour later.

Modelling choices:
- A JS object is a structure whose fields are all `Option`: a field absent
  from the object is `none`.  Terminal writes in the source (lines 135-144 and
  165-173) build a fresh object literal, so the corresponding records carry
  `none` in every field the literal omits.
- The `jobs` map is an association list with JS `Map` semantics: `set`
  replaces in place or appends, `get` finds the first key, `delete` removes
  the key.
- Every fallible external effect (fs.mkdir, the yt-dlp subprocess - covering
  both non-zero exit and timeout, fs.access on the declared output path,
  the AssemblyAI network call, the callback fetch) is a field of an `Env`
  record: `none`/`true` means the effect succeeds, `some msg` means it throws
  with `msg` as the JS `error.message`.  Timestamps produced by
  `new Date().toISOString()` are abstracted to three `Nat` clock readings.
- The pipeline is a state transformer on `PState`, which carries the registry
  plus observation traces: the sequence of records written by `jobs.set`, the
  audio paths passed to the transcribe call, the callback fetch attempts and
  their failures, and the deferred deletions scheduled by `setTimeout`.
-/

/-- A job record: the JS object stored in the `jobs` map.  Every field is
optional because the source sometimes replaces the whole object with a literal
that omits fields (lines 135-144, 165-173). -/
structure JobRecord where
  jobId : Option String := none
  url : Option String := none
  status : Option String := none
  createdAt : Option Nat := none
  startedAt : Option Nat := none
  completedAt : Option Nat := none
  failedAt : Option Nat := none
  transcript : Option String := none
  error : Option String := none
deriving Repr, DecidableEq

/-- The in-memory job registry (`const jobs = new Map()`, line 20), as an
association list in insertion order. -/
abbrev Registry := List (String × JobRecord)

/-- JS `jobs.get(id)`: first record stored under `id`, if any. -/
def Registry.get (r : Registry) (id : String) : Option JobRecord :=
  match r with
  | [] => none
  | (k, v) :: rest => if k == id then some v else Registry.get rest id

/-- JS `jobs.set(id, j)`: replace the record under `id` in place, or append a
new entry (JS `Map.set` keeps insertion order). -/
def Registry.set (r : Registry) (id : String) (j : JobRecord) : Registry :=
  match r with
  | [] => [(id, j)]
  | (k, v) :: rest =>
      if k == id then (id, j) :: rest else (k, v) :: Registry.set rest id j

/-- JS `jobs.delete(id)`: remove the entry under `id`. -/
def Registry.delete (r : Registry) (id : String) : Registry :=
  match r with
  | [] => []
  | (k, v) :: rest =>
      if k == id then Registry.delete rest id else (k, v) :: Registry.delete rest id

/-- The update idiom of lines 78-82, 90-93 and 121-124:
`jobs.set(jobId, {...jobs.get(jobId), <patch>})`.  The spread of `undefined`
(when `jobs.get` misses) is the empty object, i.e. the all-`none` record. -/
def registryUpdate (r : Registry) (id : String) (patch : JobRecord → JobRecord) : Registry :=
  Registry.set r id (patch ((Registry.get r id).getD {}))

/-- External world of one pipeline run.  `none` / `true` fields mean the
corresponding effect succeeds; `some msg` means it throws with message `msg`. -/
structure Env where
  /-- clock at job creation (line 59, `createdAt`). -/
  tCreated : Nat := 0
  /-- clock at pipeline start (line 81, `startedAt`). -/
  tStarted : Nat := 0
  /-- clock at the terminal transition (lines 140 and 170). -/
  tFinished : Nat := 0
  /-- Rejection of `fs.mkdir(tempDir)` (line 85). -/
  mkdirError : Option String := none
  /-- Rejection of `execAsync(yt-dlp ...)` (lines 98-101): non-zero exit or the
  5-minute timeout both surface here as `downloadError.message`. -/
  execError : Option String := none
  /-- whether `fs.access(audioPath)` (line 108) succeeds, i.e. the declared
  output `tempDir/audio.mp3` exists. -/
  accessOk : Bool := true
  /-- Names in the scratch directory (`fs.readdir(tempDir)`, line 111). -/
  dirFiles : List String := []
  /-- Rejection of `assemblyai.transcripts.transcribe` (lines 126-129), a
  network/transport error. -/
  transcribeError : Option String := none
  /-- Value of `transcript.status` reported by AssemblyAI (line 131). -/
  aaiStatus : String := "completed"
  /-- Value of `transcript.error` reported by AssemblyAI (line 132). -/
  aaiError : String := ""
  /-- Value of `transcript.text` reported by AssemblyAI (line 138), a string per
  the provider interface (possibly empty). -/
  aaiText : String := ""
  /-- Rejection of `fetch(callbackUrl, ...)` (lines 151, 178). -/
  callbackError : Option String := none
deriving Repr, DecidableEq

/-- Observable state threaded through one job's lifetime. -/
structure PState where
  registry : Registry := []
  /-- records written by `jobs.set`, in program order. -/
  writes : List JobRecord := []
  /-- audio paths passed to the transcribe call (line 127). -/
  transcribeCalls : List String := []
  /-- callback fetch invocations `(callbackUrl, payload)` (lines 151-155, 178-182). -/
  callbackAttempts : List (String × JobRecord) := []
  /-- messages of callback fetch rejections, swallowed by the source
  (lines 157-159, 183-185). -/
  callbackFailures : List String := []
  /-- deferred deletions `(jobId, delay in ms)` scheduled by `setTimeout`
  (lines 196-198). -/
  scheduledDeletes : List (String × Nat) := []
deriving Repr, DecidableEq

/-- JS `jobs.set` with a full object literal (lines 55-60, 144, 173), recorded
in the write trace. -/
def jobsSetFull (s : PState) (id : String) (j : JobRecord) : PState :=
  { s with registry := Registry.set s.registry id j, writes := s.writes ++ [j] }

/-- The update idiom `jobs.set(jobId, {...jobs.get(jobId), <patch>})`
(lines 78-82, 90-93, 121-124), recorded in the write trace. -/
def jobsUpdate (s : PState) (id : String) (patch : JobRecord → JobRecord) : PState :=
  let j := patch ((Registry.get s.registry id).getD {})
  { s with registry := Registry.set s.registry id j, writes := s.writes ++ [j] }

/-- JS `String.prototype.endsWith`, modelled as a suffix test on the
character sequence. -/
def strEndsWith (s suffix : String) : Bool :=
  suffix.data.isSuffixOf s.data

/-- Line 112: accepted audio extensions in the fallback scan
(`f.endsWith('.mp3') || f.endsWith('.m4a') || f.endsWith('.wav')`). -/
def isAudioFile (f : String) : Bool :=
  strEndsWith f ".mp3" || strEndsWith f ".m4a" || strEndsWith f ".wav"

/-- Lines 106-116: after the tool succeeded, check the declared output path;
if absent, scan the scratch directory for any accepted audio file; `some msg`
is the thrown error message when the scan also finds nothing. -/
def checkAudioFile (env : Env) : Option String :=
  if env.accessOk then none
  else
    match env.dirFiles.find? isAudioFile with
    | some _ => none
    | none => some "Audio file was not created. Video may be private or unavailable."

/-- Lines 97-116, the media extraction step's outcome: `some msg` is the error
message thrown (tool non-zero exit or timeout wrapped as `Download failed: `,
or missing output after a fruitless scan); `none` means extraction proceeds.
All failures share this single `Option String` error channel - the source
raises plain `Error` values distinguished only by message. -/
def mediaExtractionResult (env : Env) : Option String :=
  match env.execError with
  | some e => some ("Download failed: " ++ e)
  | none => checkAudioFile env

/-- Lines 149-160 and 176-186: if a callback URL was supplied, attempt a single
fetch with the final record; a rejection is caught and only logged, so the
registry is untouched either way. -/
def attemptCallback (env : Env) (callbackUrl : Option String) (payload : JobRecord)
    (s : PState) : PState :=
  match callbackUrl with
  | none => s
  | some cb =>
      let s := { s with callbackAttempts := s.callbackAttempts ++ [(cb, payload)] }
      match env.callbackError with
      | some e => { s with callbackFailures := s.callbackFailures ++ [e] }
      | none => s

/-- The `try` block of `processTranscription` (lines 84-161).  Returns the
state at exit together with `some msg` when the block threw `msg` (caught by
the `catch` at line 162). -/
def tryBody (env : Env) (jobId url tempDir : String) (callbackUrl : Option String)
    (s : PState) : PState × Option String :=
  -- line 85: await fs.mkdir(tempDir, { recursive: true })
  match env.mkdirError with
  | some e => (s, some e)
  | none =>
    -- lines 90-93: status 'downloading'
    let s := jobsUpdate s jobId (fun b => { b with status := some "downloading" })
    -- line 95: audioPath = path.join(tempDir, 'audio.mp3')
    let audioPath := tempDir ++ "/audio.mp3"
    -- lines 97-116: download and output check
    match mediaExtractionResult env with
    | some e => (s, some e)
    | none =>
      -- lines 121-124: status 'transcribing'
      let s := jobsUpdate s jobId (fun b => { b with status := some "transcribing" })
      -- lines 126-129: assemblyai.transcripts.transcribe({ audio: audioPath, ... })
      let s := { s with transcribeCalls := s.transcribeCalls ++ [audioPath] }
      match env.transcribeError with
      | some e => (s, some e)
      | none =>
        -- lines 131-133: provider-reported failure status
        if env.aaiStatus == "error" then
          (s, some ("AssemblyAI error: " ++ env.aaiError))
        else
          -- lines 135-144: result literal replaces the record
          let result : JobRecord :=
            { jobId := some jobId, url := some url, transcript := some env.aaiText,
              status := some "completed", completedAt := some env.tFinished }
          let s := jobsSetFull s jobId result
          -- lines 149-160: success callback
          (attemptCallback env callbackUrl result s, none)

/-- The background pipeline `processTranscription(jobId, url, callbackUrl)`
(lines 74-200). -/
def processTranscription (env : Env) (jobId url : String) (callbackUrl : Option String)
    (s0 : PState) : PState :=
  let tempDir := "/tmp/transcribe_" ++ jobId
  -- lines 78-82: status 'processing', startedAt
  let s := jobsUpdate s0 jobId
    (fun b => { b with status := some "processing", startedAt := some env.tStarted })
  let (s, err) := tryBody env jobId url tempDir callbackUrl s
  let s :=
    match err with
    | none => s
    | some msg =>
        -- lines 165-173: errorResult literal replaces the record
        let errorResult : JobRecord :=
          { jobId := some jobId, url := some url, error := some msg,
            status := some "failed", failedAt := some env.tFinished }
        let s := jobsSetFull s jobId errorResult
        -- lines 176-186: failure callback
        attemptCallback env callbackUrl errorResult s
  -- finally (lines 187-198): fs.rm of the scratch dir is best-effort and has
  -- no observable effect here; setTimeout schedules jobs.delete in one hour.
  { s with scheduledDeletes := s.scheduledDeletes ++ [(jobId, 60 * 60 * 1000)] }

/-- Request body of `POST /transcribe` (line 45): `url` absent or present,
optional `callbackUrl`. -/
structure ReqBody where
  url : Option String := none
  callbackUrl : Option String := none
deriving Repr, DecidableEq

/-- Outcome of the synchronous part of `POST /transcribe`. -/
structure PostResult where
  statusCode : Nat
  state : PState
  pipelineStarted : Bool
deriving Repr, DecidableEq

/-- Synchronous part of `app.post('/transcribe')` (lines 44-72): validate the
url (JS `!url` rejects both a missing and an empty string), store the queued
record, respond, and flag that the background pipeline starts. -/
def postTranscribe (body : ReqBody) (jobId : String) (tNow : Nat) (s : PState) : PostResult :=
  match body.url with
  | none => { statusCode := 400, state := s, pipelineStarted := false }
  | some u =>
      if u == "" then { statusCode := 400, state := s, pipelineStarted := false }
      else
        { statusCode := 200,
          state := jobsSetFull s jobId
            { jobId := some jobId, url := some u, status := some "queued",
              createdAt := some tNow },
          pipelineStarted := true }

/-- The status endpoint `app.get('/job/:jobId')` (lines 32-41): 404 when the
id is unknown, else the stored record. -/
def getJob (r : Registry) (jobId : String) : Nat × Option JobRecord :=
  match Registry.get r jobId with
  | none => (404, none)
  | some j => (200, some j)

/-- One job's whole lifetime: the creation request followed, when admitted, by
the background pipeline (line 71). -/
def lifecycle (env : Env) (jobId : String) (body : ReqBody) : PState :=
  let pr := postTranscribe body jobId env.tCreated {}
  if pr.pipelineStarted then
    processTranscription env jobId (body.url.getD "") body.callbackUrl pr.state
  else pr.state

/-- Statuses written to the registry over a job's lifetime, in order. -/
def statusTrace (s : PState) : List String :=
  s.writes.filterMap (fun w => w.status)

/-! Part: Registry lemmas -/

theorem Registry.get_set_self (r : Registry) (id : String) (j : JobRecord) :
    Registry.get (Registry.set r id j) id = some j := by
  induction r with
  | nil => simp [Registry.set, Registry.get]
  | cons p rest ih =>
      obtain ⟨k, v⟩ := p
      by_cases h : (k == id) = true
      · simp [Registry.set, Registry.get, h]
      · simp [Registry.set, Registry.get, h, ih]

theorem Registry.get_delete_self (r : Registry) (id : String) :
    Registry.get (Registry.delete r id) id = none := by
  induction r with
  | nil => simp [Registry.delete, Registry.get]
  | cons p rest ih =>
      obtain ⟨k, v⟩ := p
      by_cases h : (k == id) = true
      · simp [Registry.delete, Registry.get, h, ih]
      · simp [Registry.delete, Registry.get, h, ih]

/-! Part: The records a job's lifetime writes, as abbreviations -/

/-- The queued record stored at creation (lines 55-60). -/
def qRec (j u : String) (t : Nat) : JobRecord :=
  { jobId := some j, url := some u, status := some "queued", createdAt := some t }

/-- The record after the processing update (lines 78-82). -/
def pRec (j u : String) (t ts : Nat) : JobRecord :=
  { jobId := some j, url := some u, status := some "processing",
    createdAt := some t, startedAt := some ts }

/-- The record after the downloading update (lines 90-93). -/
def dRec (j u : String) (t ts : Nat) : JobRecord :=
  { pRec j u t ts with status := some "downloading" }

/-- The record after the transcribing update (lines 121-124). -/
def xRec (j u : String) (t ts : Nat) : JobRecord :=
  { pRec j u t ts with status := some "transcribing" }

/-- The success literal `result` (lines 135-141). -/
def cRec (j u text : String) (tf : Nat) : JobRecord :=
  { jobId := some j, url := some u, transcript := some text,
    status := some "completed", completedAt := some tf }

/-- The failure literal `errorResult` (lines 165-171). -/
def fRec (j u msg : String) (tf : Nat) : JobRecord :=
  { jobId := some j, url := some u, error := some msg,
    status := some "failed", failedAt := some tf }

/-- Callback attempts produced by one `attemptCallback`. -/
def cbList (cb : Option String) (payload : JobRecord) : List (String × JobRecord) :=
  match cb with
  | none => []
  | some c => [(c, payload)]

/-- Callback failures produced by one `attemptCallback`. -/
def cbFails (cb : Option String) (err : Option String) : List String :=
  match cb, err with
  | some _, some e => [e]
  | _, _ => []

theorem attemptCallback_eq (env : Env) (cb : Option String) (payload : JobRecord) (s : PState) :
    attemptCallback env cb payload s =
      { s with callbackAttempts := s.callbackAttempts ++ cbList cb payload,
               callbackFailures := s.callbackFailures ++ cbFails cb env.callbackError } := by
  cases cb with
  | none => simp [attemptCallback, cbList, cbFails]
  | some c =>
      cases h : env.callbackError with
      | none => simp [attemptCallback, cbList, cbFails, h]
      | some e => simp [attemptCallback, cbList, cbFails, h]

/-! Part: Run lemmas: one per control path of the pipeline -/

theorem lifecycle_no_url (env : Env) (j : String) (body : ReqBody)
    (h : body.url = none) : lifecycle env j body = {} := by
  simp [lifecycle, postTranscribe, h]

theorem lifecycle_empty_url (env : Env) (j : String) (body : ReqBody)
    (h : body.url = some "") : lifecycle env j body = {} := by
  simp [lifecycle, postTranscribe, h]

theorem lifecycle_mkdir_fail (env : Env) (j u e : String) (cb : Option String)
    (hne : (u == "") = false)
    (hm : env.mkdirError = some e) :
    lifecycle env j { url := some u, callbackUrl := cb } =
      { registry := [(j, fRec j u e env.tFinished)],
        writes := [qRec j u env.tCreated, pRec j u env.tCreated env.tStarted,
                   fRec j u e env.tFinished],
        transcribeCalls := [],
        callbackAttempts := cbList cb (fRec j u e env.tFinished),
        callbackFailures := cbFails cb env.callbackError,
        scheduledDeletes := [(j, 60 * 60 * 1000)] } := by
  simp [lifecycle, postTranscribe, processTranscription, tryBody, jobsUpdate, jobsSetFull,
        attemptCallback_eq, Registry.set, Registry.get, hne, hm,
        qRec, pRec, fRec]

theorem lifecycle_extract_fail (env : Env) (j u m : String) (cb : Option String)
    (hne : (u == "") = false)
    (hm : env.mkdirError = none)
    (hx : mediaExtractionResult env = some m) :
    lifecycle env j { url := some u, callbackUrl := cb } =
      { registry := [(j, fRec j u m env.tFinished)],
        writes := [qRec j u env.tCreated, pRec j u env.tCreated env.tStarted,
                   dRec j u env.tCreated env.tStarted, fRec j u m env.tFinished],
        transcribeCalls := [],
        callbackAttempts := cbList cb (fRec j u m env.tFinished),
        callbackFailures := cbFails cb env.callbackError,
        scheduledDeletes := [(j, 60 * 60 * 1000)] } := by
  simp [lifecycle, postTranscribe, processTranscription, tryBody, jobsUpdate, jobsSetFull,
        attemptCallback_eq, Registry.set, Registry.get, hne, hm, hx,
        qRec, pRec, dRec, fRec]

theorem lifecycle_transcribe_net_fail (env : Env) (j u e : String) (cb : Option String)
    (hne : (u == "") = false)
    (hm : env.mkdirError = none)
    (hx : mediaExtractionResult env = none)
    (ht : env.transcribeError = some e) :
    lifecycle env j { url := some u, callbackUrl := cb } =
      { registry := [(j, fRec j u e env.tFinished)],
        writes := [qRec j u env.tCreated, pRec j u env.tCreated env.tStarted,
                   dRec j u env.tCreated env.tStarted, xRec j u env.tCreated env.tStarted,
                   fRec j u e env.tFinished],
        transcribeCalls := [("/tmp/transcribe_" ++ j) ++ "/audio.mp3"],
        callbackAttempts := cbList cb (fRec j u e env.tFinished),
        callbackFailures := cbFails cb env.callbackError,
        scheduledDeletes := [(j, 60 * 60 * 1000)] } := by
  simp [lifecycle, postTranscribe, processTranscription, tryBody, jobsUpdate, jobsSetFull,
        attemptCallback_eq, Registry.set, Registry.get, hne, hm, hx, ht,
        qRec, pRec, dRec, xRec, fRec]

theorem lifecycle_aai_status_fail (env : Env) (j u : String) (cb : Option String)
    (hne : (u == "") = false)
    (hm : env.mkdirError = none)
    (hx : mediaExtractionResult env = none)
    (ht : env.transcribeError = none)
    (ha : (env.aaiStatus == "error") = true) :
    lifecycle env j { url := some u, callbackUrl := cb } =
      { registry := [(j, fRec j u ("AssemblyAI error: " ++ env.aaiError) env.tFinished)],
        writes := [qRec j u env.tCreated, pRec j u env.tCreated env.tStarted,
                   dRec j u env.tCreated env.tStarted, xRec j u env.tCreated env.tStarted,
                   fRec j u ("AssemblyAI error: " ++ env.aaiError) env.tFinished],
        transcribeCalls := [("/tmp/transcribe_" ++ j) ++ "/audio.mp3"],
        callbackAttempts := cbList cb (fRec j u ("AssemblyAI error: " ++ env.aaiError) env.tFinished),
        callbackFailures := cbFails cb env.callbackError,
        scheduledDeletes := [(j, 60 * 60 * 1000)] } := by
  simp [lifecycle, postTranscribe, processTranscription, tryBody, jobsUpdate, jobsSetFull,
        attemptCallback_eq, Registry.set, Registry.get, hne, hm, hx, ht, ha,
        qRec, pRec, dRec, xRec, fRec]

theorem lifecycle_success (env : Env) (j u : String) (cb : Option String)
    (hne : (u == "") = false)
    (hm : env.mkdirError = none)
    (hx : mediaExtractionResult env = none)
    (ht : env.transcribeError = none)
    (ha : (env.aaiStatus == "error") = false) :
    lifecycle env j { url := some u, callbackUrl := cb } =
      { registry := [(j, cRec j u env.aaiText env.tFinished)],
        writes := [qRec j u env.tCreated, pRec j u env.tCreated env.tStarted,
                   dRec j u env.tCreated env.tStarted, xRec j u env.tCreated env.tStarted,
                   cRec j u env.aaiText env.tFinished],
        transcribeCalls := [("/tmp/transcribe_" ++ j) ++ "/audio.mp3"],
        callbackAttempts := cbList cb (cRec j u env.aaiText env.tFinished),
        callbackFailures := cbFails cb env.callbackError,
        scheduledDeletes := [(j, 60 * 60 * 1000)] } := by
  simp [lifecycle, postTranscribe, processTranscription, tryBody, jobsUpdate, jobsSetFull,
        attemptCallback_eq, Registry.set, Registry.get, hne, hm, hx, ht, ha,
        qRec, pRec, dRec, xRec, cRec]

/-! Part: C1 -/

/-- C1 (counterexample): on a plain successful run the sequence of statuses
written is `queued, processing, downloading, transcribing, completed`; it
contains `processing`, which is not among the claim's five values, and it is
not a subsequence of any of the claim's three sequences. -/
theorem C1_counterexample :
    statusTrace (lifecycle {} "job_1" { url := some "https://example.com/v" }) =
      ["queued", "processing", "downloading", "transcribing", "completed"] ∧
    "processing" ∉ ["queued", "downloading", "transcribing", "completed", "failed"] ∧
    ¬ List.Sublist (statusTrace (lifecycle {} "job_1" { url := some "https://example.com/v" }))
        ["queued", "downloading", "transcribing", "completed"] ∧
    ¬ List.Sublist (statusTrace (lifecycle {} "job_1" { url := some "https://example.com/v" }))
        ["queued", "downloading", "failed"] ∧
    ¬ List.Sublist (statusTrace (lifecycle {} "job_1" { url := some "https://example.com/v" }))
        ["queued", "transcribing", "failed"] := by
  decide

/-- C1 (amended): the registry record's status is always one of the six values
`queued, processing, downloading, transcribing, completed, failed`, and over a
job's lifetime the sequence of statuses written is a subsequence of
`(queued, processing, downloading, transcribing, completed)` or of
`(queued, processing, downloading, transcribing, failed)`, never revisiting an
earlier status. -/
theorem C1_amended_trace (env : Env) (j : String) (body : ReqBody) :
    (∀ st ∈ statusTrace (lifecycle env j body),
        st ∈ ["queued", "processing", "downloading", "transcribing", "completed", "failed"]) ∧
    (List.Sublist (statusTrace (lifecycle env j body))
        ["queued", "processing", "downloading", "transcribing", "completed"] ∨
      List.Sublist (statusTrace (lifecycle env j body))
        ["queued", "processing", "downloading", "transcribing", "failed"]) ∧
    (statusTrace (lifecycle env j body)).Nodup := by
  rcases body with ⟨u?, cb⟩
  cases u? with
  | none =>
      rw [lifecycle_no_url env j _ rfl]
      simp [statusTrace]
  | some u =>
      cases hne : u == "" with
      | true =>
          have hu : u = "" := by simpa using hne
          subst hu
          rw [lifecycle_empty_url env j _ rfl]
          simp [statusTrace]
      | false =>
          cases hm : env.mkdirError with
          | some e =>
              rw [lifecycle_mkdir_fail env j u e cb hne hm]
              simp [statusTrace, qRec, pRec, fRec]
          | none =>
              cases hx : mediaExtractionResult env with
              | some m =>
                  rw [lifecycle_extract_fail env j u m cb hne hm hx]
                  simp [statusTrace, qRec, pRec, dRec, fRec]
              | none =>
                  cases ht : env.transcribeError with
                  | some e =>
                      rw [lifecycle_transcribe_net_fail env j u e cb hne hm hx ht]
                      simp [statusTrace, qRec, pRec, dRec, xRec, fRec]
                  | none =>
                      cases ha : env.aaiStatus == "error" with
                      | true =>
                          rw [lifecycle_aai_status_fail env j u cb hne hm hx ht ha]
                          simp [statusTrace, qRec, pRec, dRec, xRec, fRec]
                      | false =>
                          rw [lifecycle_success env j u cb hne hm hx ht ha]
                          simp [statusTrace, qRec, pRec, dRec, xRec, cRec]

/-- C1 witness: on a concrete run, the first status written is among the six
values. -/
theorem C1_witness :
    "queued" ∈ ["queued", "processing", "downloading", "transcribing", "completed", "failed"] :=
  (C1_amended_trace {} "job_2" { url := some "u" }).1 "queued" (by decide)

/-! Part: C2 -/

/-- C2: every record written over a job's lifetime satisfies: with status
`completed` the transcript is populated and the error absent; with status
`failed` the error is populated and the transcript absent; with any other
status neither is populated.  The registry holds, at every point of the
lifetime, the last record written so far, so this covers the registry record
at every point. -/
theorem C2_transcript_error_exclusive (env : Env) (j : String) (body : ReqBody) :
    ∀ w ∈ (lifecycle env j body).writes,
      (w.status = some "completed" → w.transcript.isSome ∧ w.error = none) ∧
      (w.status = some "failed" → w.error.isSome ∧ w.transcript = none) ∧
      (w.status ≠ some "completed" → w.status ≠ some "failed" →
        w.transcript = none ∧ w.error = none) := by
  rcases body with ⟨u?, cb⟩
  cases u? with
  | none => rw [lifecycle_no_url env j _ rfl]; simp
  | some u =>
      cases hne : u == "" with
      | true =>
          have hu : u = "" := by simpa using hne
          subst hu
          rw [lifecycle_empty_url env j _ rfl]; simp
      | false =>
          cases hm : env.mkdirError with
          | some e =>
              rw [lifecycle_mkdir_fail env j u e cb hne hm]
              simp [qRec, pRec, fRec]
          | none =>
              cases hx : mediaExtractionResult env with
              | some m =>
                  rw [lifecycle_extract_fail env j u m cb hne hm hx]
                  simp [qRec, pRec, dRec, fRec]
              | none =>
                  cases ht : env.transcribeError with
                  | some e =>
                      rw [lifecycle_transcribe_net_fail env j u e cb hne hm hx ht]
                      simp [qRec, pRec, dRec, xRec, fRec]
                  | none =>
                      cases ha : env.aaiStatus == "error" with
                      | true =>
                          rw [lifecycle_aai_status_fail env j u cb hne hm hx ht ha]
                          simp [qRec, pRec, dRec, xRec, fRec]
                      | false =>
                          rw [lifecycle_success env j u cb hne hm hx ht ha]
                          simp [qRec, pRec, dRec, xRec, cRec]

/-- C2 witness: the success record of a concrete run satisfies the property. -/
theorem C2_witness :
    ((cRec "job_1" "u" "" 0).status = some "completed" →
      (cRec "job_1" "u" "" 0).transcript.isSome ∧ (cRec "job_1" "u" "" 0).error = none) ∧
    ((cRec "job_1" "u" "" 0).status = some "failed" →
      (cRec "job_1" "u" "" 0).error.isSome ∧ (cRec "job_1" "u" "" 0).transcript = none) ∧
    ((cRec "job_1" "u" "" 0).status ≠ some "completed" →
      (cRec "job_1" "u" "" 0).status ≠ some "failed" →
      (cRec "job_1" "u" "" 0).transcript = none ∧ (cRec "job_1" "u" "" 0).error = none) :=
  C2_transcript_error_exclusive {} "job_1" { url := some "u" } (cRec "job_1" "u" "" 0)
    (by decide)

/-! Part: C3 -/

/-- C3 (counterexample): on a concrete successful run `createdAt` is written
(`some 0`) in the queued record, yet the terminal registry record - the
literal of lines 135-141, which replaces the whole object - carries neither
`createdAt` nor `startedAt`, so a written timestamp does not remain present at
every later point. -/
theorem C3_counterexample :
    (lifecycle {} "job_1" { url := some "u" }).writes.head? = some (qRec "job_1" "u" 0) ∧
    (qRec "job_1" "u" 0).createdAt = some 0 ∧
    Registry.get (lifecycle {} "job_1" { url := some "u" }).registry "job_1" =
      some (cRec "job_1" "u" "" 0) ∧
    (cRec "job_1" "u" "" 0).createdAt = none ∧
    (cRec "job_1" "u" "" 0).startedAt = none := by
  decide

/-- C3 (amended): each timestamp is written exactly once at its transition and
carried unchanged through every non-terminal update; the terminal write,
however, replaces the whole record, so the terminal record carries only
`completedAt` (resp. `failedAt`) and drops `createdAt` and `startedAt`. -/
theorem C3_amended_timestamps (env : Env) (j : String) (body : ReqBody) :
    ∀ w ∈ (lifecycle env j body).writes,
      (w.status = some "queued" →
        w.createdAt = some env.tCreated ∧ w.startedAt = none ∧
        w.completedAt = none ∧ w.failedAt = none) ∧
      ((w.status = some "processing" ∨ w.status = some "downloading" ∨
          w.status = some "transcribing") →
        w.createdAt = some env.tCreated ∧ w.startedAt = some env.tStarted ∧
        w.completedAt = none ∧ w.failedAt = none) ∧
      (w.status = some "completed" →
        w.completedAt = some env.tFinished ∧ w.failedAt = none ∧
        w.createdAt = none ∧ w.startedAt = none) ∧
      (w.status = some "failed" →
        w.failedAt = some env.tFinished ∧ w.completedAt = none ∧
        w.createdAt = none ∧ w.startedAt = none) := by
  rcases body with ⟨u?, cb⟩
  cases u? with
  | none => rw [lifecycle_no_url env j _ rfl]; simp
  | some u =>
      cases hne : u == "" with
      | true =>
          have hu : u = "" := by simpa using hne
          subst hu
          rw [lifecycle_empty_url env j _ rfl]; simp
      | false =>
          cases hm : env.mkdirError with
          | some e =>
              rw [lifecycle_mkdir_fail env j u e cb hne hm]
              simp [qRec, pRec, fRec]
          | none =>
              cases hx : mediaExtractionResult env with
              | some m =>
                  rw [lifecycle_extract_fail env j u m cb hne hm hx]
                  simp [qRec, pRec, dRec, fRec]
              | none =>
                  cases ht : env.transcribeError with
                  | some e =>
                      rw [lifecycle_transcribe_net_fail env j u e cb hne hm hx ht]
                      simp [qRec, pRec, dRec, xRec, fRec]
                  | none =>
                      cases ha : env.aaiStatus == "error" with
                      | true =>
                          rw [lifecycle_aai_status_fail env j u cb hne hm hx ht ha]
                          simp [qRec, pRec, dRec, xRec, fRec]
                      | false =>
                          rw [lifecycle_success env j u cb hne hm hx ht ha]
                          simp [qRec, pRec, dRec, xRec, cRec]

/-- C3 witness: the queued record of a concrete run satisfies the amended
property. -/
theorem C3_witness :
    ((qRec "job_1" "u" 0).status = some "queued" →
      (qRec "job_1" "u" 0).createdAt = some 0 ∧ (qRec "job_1" "u" 0).startedAt = none ∧
      (qRec "job_1" "u" 0).completedAt = none ∧ (qRec "job_1" "u" 0).failedAt = none) ∧
    (((qRec "job_1" "u" 0).status = some "processing" ∨
        (qRec "job_1" "u" 0).status = some "downloading" ∨
        (qRec "job_1" "u" 0).status = some "transcribing") →
      (qRec "job_1" "u" 0).createdAt = some 0 ∧ (qRec "job_1" "u" 0).startedAt = some 0 ∧
      (qRec "job_1" "u" 0).completedAt = none ∧ (qRec "job_1" "u" 0).failedAt = none) ∧
    ((qRec "job_1" "u" 0).status = some "completed" →
      (qRec "job_1" "u" 0).completedAt = some 0 ∧ (qRec "job_1" "u" 0).failedAt = none ∧
      (qRec "job_1" "u" 0).createdAt = none ∧ (qRec "job_1" "u" 0).startedAt = none) ∧
    ((qRec "job_1" "u" 0).status = some "failed" →
      (qRec "job_1" "u" 0).failedAt = some 0 ∧ (qRec "job_1" "u" 0).completedAt = none ∧
      (qRec "job_1" "u" 0).createdAt = none ∧ (qRec "job_1" "u" 0).startedAt = none) :=
  C3_amended_timestamps {} "job_1" { url := some "u" } (qRec "job_1" "u" 0) (by decide)

/-! Part: C4 -/

/-- C4 (counterexample): the update idiom applied to an id absent from the
registry is not a no-op and signals no error: on the empty registry it creates
a brand-new record under the id, holding only the patch fields. -/
theorem C4_counterexample :
    Registry.get ([] : Registry) "job_1" = none ∧
    registryUpdate [] "job_1"
        (fun b => { b with status := some "processing", startedAt := some 5 }) =
      [("job_1", { status := some "processing", startedAt := some 5 })] ∧
    registryUpdate [] "job_1"
        (fun b => { b with status := some "processing", startedAt := some 5 }) ≠
      ([] : Registry) := by
  decide

/-- C4 (amended): for an id not present in the registry, the update idiom
(`jobs.set(id, {...jobs.get(id), patch})`) silently creates a new record under
that id, equal to the patch applied to the empty object; no error is signaled
(the operation has no error channel at all). -/
theorem C4_amended_update_creates (r : Registry) (id : String)
    (patch : JobRecord → JobRecord) (h : Registry.get r id = none) :
    registryUpdate r id patch = Registry.set r id (patch {}) ∧
    Registry.get (registryUpdate r id patch) id = some (patch {}) := by
  refine ⟨?_, ?_⟩
  · simp [registryUpdate, h]
  · simp [registryUpdate, h, Registry.get_set_self]

/-- C4 witness: on the empty registry the update idiom creates the patched
empty record. -/
theorem C4_witness :
    registryUpdate [] "job_1" (fun (b : JobRecord) => { b with status := some "downloading" }) =
      Registry.set [] "job_1"
        ((fun (b : JobRecord) => { b with status := some "downloading" }) {}) ∧
    Registry.get
        (registryUpdate [] "job_1" (fun (b : JobRecord) => { b with status := some "downloading" }))
        "job_1" =
      some ((fun (b : JobRecord) => { b with status := some "downloading" }) {}) :=
  C4_amended_update_creates [] "job_1" (fun (b : JobRecord) => { b with status := some "downloading" })
    (by decide)

/-! Part: C5 -/

/-- C5: `completed` and `failed` are terminal: in the sequence of records a
job's lifetime writes, every record before the last carries a non-terminal
status, so once a terminal status is written no later pipeline step writes any
further status (in particular a completed record is never overwritten as
failed). -/
theorem C5_terminal_statuses_final (env : Env) (j : String) (body : ReqBody) :
    ∀ w ∈ (lifecycle env j body).writes.dropLast,
      w.status ≠ some "completed" ∧ w.status ≠ some "failed" := by
  rcases body with ⟨u?, cb⟩
  cases u? with
  | none => rw [lifecycle_no_url env j _ rfl]; simp
  | some u =>
      cases hne : u == "" with
      | true =>
          have hu : u = "" := by simpa using hne
          subst hu
          rw [lifecycle_empty_url env j _ rfl]; simp
      | false =>
          cases hm : env.mkdirError with
          | some e =>
              rw [lifecycle_mkdir_fail env j u e cb hne hm]
              simp [qRec, pRec, fRec, List.dropLast]
          | none =>
              cases hx : mediaExtractionResult env with
              | some m =>
                  rw [lifecycle_extract_fail env j u m cb hne hm hx]
                  simp [qRec, pRec, dRec, fRec, List.dropLast]
              | none =>
                  cases ht : env.transcribeError with
                  | some e =>
                      rw [lifecycle_transcribe_net_fail env j u e cb hne hm hx ht]
                      simp [qRec, pRec, dRec, xRec, fRec, List.dropLast]
                  | none =>
                      cases ha : env.aaiStatus == "error" with
                      | true =>
                          rw [lifecycle_aai_status_fail env j u cb hne hm hx ht ha]
                          simp [qRec, pRec, dRec, xRec, fRec, List.dropLast]
                      | false =>
                          rw [lifecycle_success env j u cb hne hm hx ht ha]
                          simp [qRec, pRec, dRec, xRec, cRec, List.dropLast]

/-- C5 witness: the downloading record, a non-last write of a concrete run,
has a non-terminal status. -/
theorem C5_witness :
    (dRec "job_1" "u" 0 0).status ≠ some "completed" ∧
    (dRec "job_1" "u" 0 0).status ≠ some "failed" :=
  C5_terminal_statuses_final {} "job_1" { url := some "u" } (dRec "job_1" "u" 0 0)
    (by decide)

/-- The registry contents and the write trace of a job's lifetime do not
depend on the callback fetch outcome: two environments differing at most in
`callbackError` produce the same registry and the same writes. -/
theorem lifecycle_callback_independent (envA envB : Env) (j : String) (body : ReqBody)
    (h1 : envA.tCreated = envB.tCreated) (h2 : envA.tStarted = envB.tStarted)
    (h3 : envA.tFinished = envB.tFinished) (h4 : envA.mkdirError = envB.mkdirError)
    (h5 : envA.execError = envB.execError) (h6 : envA.accessOk = envB.accessOk)
    (h7 : envA.dirFiles = envB.dirFiles) (h8 : envA.transcribeError = envB.transcribeError)
    (h9 : envA.aaiStatus = envB.aaiStatus) (h10 : envA.aaiError = envB.aaiError)
    (h11 : envA.aaiText = envB.aaiText) :
    (lifecycle envA j body).registry = (lifecycle envB j body).registry ∧
    (lifecycle envA j body).writes = (lifecycle envB j body).writes := by
  obtain ⟨tC, tS, tF, mke, exe, acc, df, tre, aas, aae, aat, cbeA⟩ := envA
  obtain ⟨tC', tS', tF', mke', exe', acc', df', tre', aas', aae', aat', cbeB⟩ := envB
  simp only at h1 h2 h3 h4 h5 h6 h7 h8 h9 h10 h11
  subst h1 h2 h3 h4 h5 h6 h7 h8 h9 h10 h11
  rcases body with ⟨u?, cb⟩
  cases u? with
  | none => simp [lifecycle, postTranscribe]
  | some u =>
      cases hne : u == "" with
      | true => simp [lifecycle, postTranscribe, hne]
      | false =>
          cases mke with
          | some e =>
              simp [lifecycle, postTranscribe, processTranscription, tryBody,
                    jobsUpdate, jobsSetFull, attemptCallback_eq, hne]
          | none =>
              cases exe with
              | some e =>
                  simp [lifecycle, postTranscribe, processTranscription, tryBody,
                        jobsUpdate, jobsSetFull, attemptCallback_eq,
                        mediaExtractionResult, hne]
              | none =>
                  cases hf : List.find? isAudioFile df with
                  | some f =>
                      cases acc with
                      | true =>
                          cases tre with
                          | some e =>
                              simp [lifecycle, postTranscribe, processTranscription,
                                    tryBody, jobsUpdate, jobsSetFull, attemptCallback_eq,
                                    mediaExtractionResult, checkAudioFile, hne, hf]
                          | none =>
                              cases hs : aas == "error" with
                              | true =>
                                  simp [lifecycle, postTranscribe, processTranscription,
                                        tryBody, jobsUpdate, jobsSetFull, attemptCallback_eq,
                                        mediaExtractionResult, checkAudioFile, hne, hf, hs]
                              | false =>
                                  simp [lifecycle, postTranscribe, processTranscription,
                                        tryBody, jobsUpdate, jobsSetFull, attemptCallback_eq,
                                        mediaExtractionResult, checkAudioFile, hne, hf, hs]
                      | false =>
                          cases tre with
                          | some e =>
                              simp [lifecycle, postTranscribe, processTranscription,
                                    tryBody, jobsUpdate, jobsSetFull, attemptCallback_eq,
                                    mediaExtractionResult, checkAudioFile, hne, hf]
                          | none =>
                              cases hs : aas == "error" with
                              | true =>
                                  simp [lifecycle, postTranscribe, processTranscription,
                                        tryBody, jobsUpdate, jobsSetFull, attemptCallback_eq,
                                        mediaExtractionResult, checkAudioFile, hne, hf, hs]
                              | false =>
                                  simp [lifecycle, postTranscribe, processTranscription,
                                        tryBody, jobsUpdate, jobsSetFull, attemptCallback_eq,
                                        mediaExtractionResult, checkAudioFile, hne, hf, hs]
                  | none =>
                      cases acc with
                      | true =>
                          cases tre with
                          | some e =>
                              simp [lifecycle, postTranscribe, processTranscription,
                                    tryBody, jobsUpdate, jobsSetFull, attemptCallback_eq,
                                    mediaExtractionResult, checkAudioFile, hne, hf]
                          | none =>
                              cases hs : aas == "error" with
                              | true =>
                                  simp [lifecycle, postTranscribe, processTranscription,
                                        tryBody, jobsUpdate, jobsSetFull, attemptCallback_eq,
                                        mediaExtractionResult, checkAudioFile, hne, hf, hs]
                              | false =>
                                  simp [lifecycle, postTranscribe, processTranscription,
                                        tryBody, jobsUpdate, jobsSetFull, attemptCallback_eq,
                                        mediaExtractionResult, checkAudioFile, hne, hf, hs]
                      | false =>
                          simp [lifecycle, postTranscribe, processTranscription, tryBody,
                                jobsUpdate, jobsSetFull, attemptCallback_eq,
                                mediaExtractionResult, checkAudioFile, hne, hf]

/-! Part: C6 -/

/-- C6: in the media extraction step, when the tool exits successfully and the
declared output path is absent, the scratch directory is scanned for a file
with an accepted audio extension (`.mp3`, `.m4a`, `.wav`) and the step fails
if and only if that scan finds none, with the fixed missing-output message;
a tool error (non-zero exit or the 5-minute timeout, both surfacing as the
subprocess rejection) always fails with the wrapped `Download failed:`
message.  All these failures use the one error channel (`some msg`) - plain
messages undistinguished at the type level. -/
theorem C6_extraction_fallback_scan (env : Env) :
    (env.execError = none → env.accessOk = false →
      ((mediaExtractionResult env).isSome ↔ env.dirFiles.find? isAudioFile = none) ∧
      (env.dirFiles.find? isAudioFile = none →
        mediaExtractionResult env =
          some "Audio file was not created. Video may be private or unavailable.")) ∧
    (∀ e, env.execError = some e →
      mediaExtractionResult env = some ("Download failed: " ++ e)) := by
  refine ⟨fun he ha => ?_, fun e he => by simp [mediaExtractionResult, he]⟩
  cases hf : env.dirFiles.find? isAudioFile with
  | some f => simp [mediaExtractionResult, checkAudioFile, he, ha, hf]
  | none => simp [mediaExtractionResult, checkAudioFile, he, ha, hf]

/-- C6 witness: with the tool succeeding, the declared path absent and an
empty scratch directory, the step fails; with the tool erroring, the message
is the wrapped diagnostic. -/
theorem C6_witness :
    ((mediaExtractionResult { accessOk := false }).isSome ↔
      ({ accessOk := false } : Env).dirFiles.find? isAudioFile = none) ∧
    mediaExtractionResult { execError := some "exit 1" } =
      some ("Download failed: " ++ "exit 1") :=
  ⟨((C6_extraction_fallback_scan { accessOk := false }).1 rfl rfl).1,
   (C6_extraction_fallback_scan { execError := some "exit 1" }).2 "exit 1" rfl⟩

/-! Part: C7 -/

/-- C7: when extraction succeeds only because the fallback scan found a file
with another accepted extension (declared path `<scratch>/audio.mp3` absent),
the transcription step is still invoked with the declared path, not with the
file the scan found. -/
theorem C7_transcribe_uses_declared_path (env : Env) (j u f : String) (cb : Option String)
    (hne : (u == "") = false)
    (hm : env.mkdirError = none)
    (he : env.execError = none)
    (ha : env.accessOk = false)
    (hf : env.dirFiles.find? isAudioFile = some f) :
    (lifecycle env j { url := some u, callbackUrl := cb }).transcribeCalls =
      [("/tmp/transcribe_" ++ j) ++ "/audio.mp3"] := by
  have hx : mediaExtractionResult env = none := by
    simp [mediaExtractionResult, checkAudioFile, he, ha, hf]
  cases ht : env.transcribeError with
  | some e => rw [lifecycle_transcribe_net_fail env j u e cb hne hm hx ht]
  | none =>
      cases haai : env.aaiStatus == "error" with
      | true => rw [lifecycle_aai_status_fail env j u cb hne hm hx ht haai]
      | false => rw [lifecycle_success env j u cb hne hm hx ht haai]

/-- C7 witness: a concrete run whose scratch directory holds only
`audio.m4a` still passes `<scratch>/audio.mp3` to the transcribe call. -/
theorem C7_witness :
    (lifecycle { accessOk := false, dirFiles := ["audio.m4a"] } "job_1"
        { url := some "u" }).transcribeCalls =
      [("/tmp/transcribe_" ++ "job_1") ++ "/audio.mp3"] :=
  C7_transcribe_uses_declared_path { accessOk := false, dirFiles := ["audio.m4a"] }
    "job_1" "u" "audio.m4a" none (by decide) rfl rfl rfl (by decide)

/-! Part: C8 -/

/-- C8: for an admitted job with a supplied callback URL, the callback fetch
outcome never changes the job's record: registry contents and write trace are
the same whether the fetch rejects or succeeds (so no callback error is ever
visible via the status query), exactly one delivery attempt is made (never
retried), and the final record carries the terminal status fixed by the
pipeline outcome. -/
theorem C8_callback_best_effort (env : Env) (j u c e : String)
    (hne : (u == "") = false) :
    ((lifecycle { env with callbackError := some e } j
        { url := some u, callbackUrl := some c }).registry =
      (lifecycle { env with callbackError := none } j
        { url := some u, callbackUrl := some c }).registry) ∧
    ((lifecycle { env with callbackError := some e } j
        { url := some u, callbackUrl := some c }).writes =
      (lifecycle { env with callbackError := none } j
        { url := some u, callbackUrl := some c }).writes) ∧
    (lifecycle env j { url := some u, callbackUrl := some c }).callbackAttempts.length = 1 ∧
    ∃ w, Registry.get (lifecycle env j { url := some u, callbackUrl := some c }).registry j =
          some w ∧
        (w.status = some "completed" ∨ w.status = some "failed") := by
  obtain ⟨hreg, hwrites⟩ :=
    lifecycle_callback_independent { env with callbackError := some e }
      { env with callbackError := none } j { url := some u, callbackUrl := some c }
      rfl rfl rfl rfl rfl rfl rfl rfl rfl rfl rfl
  refine ⟨hreg, hwrites, ?_, ?_⟩ <;>
  · cases hm : env.mkdirError with
    | some e' =>
        rw [lifecycle_mkdir_fail env j u e' (some c) hne hm]
        first
        | rfl
        | exact ⟨fRec j u e' env.tFinished, by simp [Registry.get], Or.inr (by simp [fRec])⟩
    | none =>
        cases hx : mediaExtractionResult env with
        | some m =>
            rw [lifecycle_extract_fail env j u m (some c) hne hm hx]
            first
            | rfl
            | exact ⟨fRec j u m env.tFinished, by simp [Registry.get], Or.inr (by simp [fRec])⟩
        | none =>
            cases ht : env.transcribeError with
            | some e' =>
                rw [lifecycle_transcribe_net_fail env j u e' (some c) hne hm hx ht]
                first
                | rfl
                | exact ⟨fRec j u e' env.tFinished, by simp [Registry.get],
                    Or.inr (by simp [fRec])⟩
            | none =>
                cases ha : env.aaiStatus == "error" with
                | true =>
                    rw [lifecycle_aai_status_fail env j u (some c) hne hm hx ht ha]
                    first
                    | rfl
                    | exact ⟨fRec j u ("AssemblyAI error: " ++ env.aaiError) env.tFinished,
                        by simp [Registry.get], Or.inr (by simp [fRec])⟩
                | false =>
                    rw [lifecycle_success env j u (some c) hne hm hx ht ha]
                    first
                    | rfl
                    | exact ⟨cRec j u env.aaiText env.tFinished,
                        by simp [Registry.get], Or.inl (by simp [cRec])⟩

/-- C8 witness: a concrete failing-download run with an unreachable callback
target keeps the same registry and writes as the run whose callback succeeds,
attempts delivery exactly once, and still ends failed. -/
theorem C8_witness :
    ((lifecycle { execError := some "boom", callbackError := some "ECONNREFUSED" } "job_1"
        { url := some "u", callbackUrl := some "http://cb" }).registry =
      (lifecycle { execError := some "boom", callbackError := none } "job_1"
        { url := some "u", callbackUrl := some "http://cb" }).registry) ∧
    ((lifecycle { execError := some "boom", callbackError := some "ECONNREFUSED" } "job_1"
        { url := some "u", callbackUrl := some "http://cb" }).writes =
      (lifecycle { execError := some "boom", callbackError := none } "job_1"
        { url := some "u", callbackUrl := some "http://cb" }).writes) ∧
    (lifecycle { execError := some "boom" } "job_1"
        { url := some "u", callbackUrl := some "http://cb" }).callbackAttempts.length = 1 ∧
    ∃ w, Registry.get (lifecycle { execError := some "boom" } "job_1"
          { url := some "u", callbackUrl := some "http://cb" }).registry "job_1" = some w ∧
        (w.status = some "completed" ∨ w.status = some "failed") :=
  C8_callback_best_effort { execError := some "boom" } "job_1" "u" "http://cb"
    "ECONNREFUSED" (by decide)

/-! Part: C9 -/

/-- C9: a creation request whose body lacks a non-empty url is rejected
synchronously with a 400 client error; the returned state is the input state
unchanged (same registry, hence same contents and size) and the pipeline is
not started. -/
theorem C9_invalid_url_rejected (body : ReqBody) (j : String) (t : Nat) (s : PState)
    (h : body.url = none ∨ body.url = some "") :
    postTranscribe body j t s =
      { statusCode := 400, state := s, pipelineStarted := false } := by
  rcases h with h | h <;> simp [postTranscribe, h]

/-- C9 witness: the empty body is rejected with 400 and the empty state is
unchanged. -/
theorem C9_witness :
    postTranscribe {} "job_1" 0 {} =
      { statusCode := 400, state := {}, pipelineStarted := false } :=
  C9_invalid_url_rejected {} "job_1" 0 {} (Or.inl rfl)

/-! Part: C10 -/

/-- C10: every admitted job, whether the pipeline ends completed or failed,
schedules exactly one deferred deletion of its record, with delay
`60 * 60 * 1000` ms (one hour) counted from the end of the pipeline; once
that deletion fires, the status query for the id answers 404 not-found -
no query during the window is needed for this. -/
theorem C10_retention_eviction (env : Env) (j u : String) (cb : Option String)
    (hne : (u == "") = false) :
    (lifecycle env j { url := some u, callbackUrl := cb }).scheduledDeletes =
      [(j, 60 * 60 * 1000)] ∧
    getJob (Registry.delete
        (lifecycle env j { url := some u, callbackUrl := cb }).registry j) j =
      (404, none) := by
  have hdel : ∀ r : Registry, getJob (Registry.delete r j) j = (404, none) := by
    intro r
    simp [getJob, Registry.get_delete_self]
  refine ⟨?_, hdel _⟩
  cases hm : env.mkdirError with
  | some e => rw [lifecycle_mkdir_fail env j u e cb hne hm]
  | none =>
      cases hx : mediaExtractionResult env with
      | some m => rw [lifecycle_extract_fail env j u m cb hne hm hx]
      | none =>
          cases ht : env.transcribeError with
          | some e => rw [lifecycle_transcribe_net_fail env j u e cb hne hm hx ht]
          | none =>
              cases ha : env.aaiStatus == "error" with
              | true => rw [lifecycle_aai_status_fail env j u cb hne hm hx ht ha]
              | false => rw [lifecycle_success env j u cb hne hm hx ht ha]

/-- C10 witness: a concrete successful run schedules the one-hour deletion and
the fired deletion makes the status query answer 404. -/
theorem C10_witness :
    (lifecycle {} "job_1" { url := some "u", callbackUrl := none }).scheduledDeletes =
      [("job_1", 60 * 60 * 1000)] ∧
    getJob (Registry.delete
        (lifecycle {} "job_1" { url := some "u", callbackUrl := none }).registry "job_1")
        "job_1" =
      (404, none) :=
  C10_retention_eviction {} "job_1" "u" none (by decide)
